import Mathlib

/-!
Verification of the Body mixin of a WHATWG-fetch-style HTTP client
(`body.js`, `fetch-error.js`).

The JavaScript source is embedded shallowly:

* the polymorphic body value (`null` / string / Blob / Buffer / Stream,
  with multipart-form objects being Streams carrying extra duck-typed
  capabilities) becomes the tagged union `BodyValue`;
* a Request/Response holder (the fields `body.js` reads off `this`)
  becomes the structure `Holder`;
* the asynchronous stream-consumption loop of `consumeBody` becomes a
  deterministic state machine `consumeStream` folding over an explicit
  trace of events (data chunks, stream error, stream end, and the
  body-timeout timer firing), with promise settle-once semantics made
  explicit in the `settled` field;
* thrown errors become the inductive `ErrValue`, separating plain
  `Error` values, `FetchError` values (which carry a `type` tag, per
  `fetch-error.js`) and the error thrown by the external JSON parser
  (`json-parse-better-errors`), which is none of the former.
-/

namespace FetchBody

/-- UTF-8 encoding of a string, as a list of byte values
(JS `Buffer.from(string)`). -/
def utf8Bytes (s : String) : List Nat :=
  s.toUTF8.toList.map (fun b => b.toNat)

/-- UTF-8 decoding of a byte list (JS `buffer.toString()`); Node
substitutes replacement characters on invalid input, a path no claim
exercises, so invalid input is mapped to `""` here. -/
def bufToString (bs : List Nat) : String :=
  match String.fromUTF8? (ByteArray.mk (Array.mk (bs.map (fun n => n.toUInt8)))) with
  | some s => s
  | none => ""

/-- Errors observable from the Body mixin.

* `plainErr` — a bare `new Error(message)`;
* `fetchErr` — a `FetchError(message, type, systemError?)` from
  `fetch-error.js`: carries the machine-readable `type` tag and, when
  constructed from a system error, its `code`;
* `jsonParseErr` — the error thrown by the external
  `json-parse-better-errors` parser, which is not a `FetchError` and
  carries no `type` tag. -/
inductive ErrValue where
  | plainErr (msg : String)
  | fetchErr (type : String) (msg : String) (code : Option String)
  | jsonParseErr (msg : String)
  deriving DecidableEq, Repr

/-- A Blob as seen from `body.js`: its backing bytes (the `BUFFER`
symbol slot), its MIME `type` string and its reported `size`. -/
structure BlobV where
  buffer : List Nat
  type : String
  size : Nat
  deriving DecidableEq, Repr

/-- A readable stream as seen from `body.js`.  `chunks` are the data
chunks the stream will deliver.  `id` distinguishes distinct stream
objects (a fresh `PassThrough` is a new object).  The three `Option`
fields model the duck-typed capabilities of a `form-data` object
(`getBoundary`, `_lengthRetrievers`, `hasKnownLength`, `getLengthSync`):
`none` means the member is absent. -/
structure StreamV where
  id : Nat
  chunks : List (List Nat)
  getBoundary : Option String := none
  lengthRetrievers : Option Nat := none
  hasKnownLengthFn : Option Bool := none
  getLengthSync : Option Nat := none
  deriving DecidableEq, Repr

/-- The tagged union of stored body shapes.  `otherB` is a value that
matched none of the `instanceof` / `typeof` tests of `body.js` (it
records the value's `String(·)` image); the `Body` constructor coerces
such values to strings, so `otherB` can only be reached by bypassing
the constructor. -/
inductive BodyValue where
  | nullB
  | strB (s : String)
  | blobB (b : BlobV)
  | bufB (b : List Nat)
  | streamB (s : StreamV)
  | otherB (repr : String)
  deriving DecidableEq, Repr

/-- The fields of a Request/Response instance that `body.js` reads:
`this.body`, `this[DISTURBED]`, `this.size`, `this.timeout`, `this.url`
and the `content-type` header consulted by `blob()`. -/
structure Holder where
  body : BodyValue
  disturbed : Bool
  size : Nat
  timeout : Nat
  url : String
  headersContentType : Option String := none
  deriving DecidableEq, Repr

/-- The `bodyUsed` getter: reads the disturbed flag. -/
def Holder.bodyUsed (h : Holder) : Bool :=
  h.disturbed

/-- The raw `body` argument handed to the `Body` constructor, before
normalization.  `otherv` is any value that is not `null`/`undefined`,
not a string, Blob, Buffer or Stream; it carries its `String(·)`
image. -/
inductive RawInput where
  | nullv
  | undef
  | strv (s : String)
  | blobv (b : BlobV)
  | bufv (b : List Nat)
  | streamv (s : StreamV)
  | otherv (repr : String)
  deriving DecidableEq, Repr

/-- The `opts` argument of the `Body` constructor; `none` models an
absent (or `null`) member, defaulted to `0` by the constructor. -/
structure BodyOpts where
  size : Option Nat := none
  timeout : Option Nat := none
  deriving DecidableEq, Repr

/-- The `Body(body, opts)` constructor: normalizes the body argument
(`null`/`undefined` → `null`; string, Blob, Buffer, Stream kept;
anything else coerced via `String(body)`), clears `DISTURBED`, and
defaults `size` and `timeout` to `0`.  The `url` and `headersContentType`
fields live on the same instance (set by the Request/Response
constructors) and are threaded through here. -/
def Body (body : RawInput) (opts : BodyOpts) (url : String)
    (hct : Option String) : Holder :=
  let size := opts.size.getD 0
  let timeout := opts.timeout.getD 0
  let b : BodyValue :=
    match body with
    | .nullv => .nullB
    | .undef => .nullB
    | .strv s => .strB s
    | .blobv bl => .blobB bl
    | .bufv bf => .bufB bf
    | .streamv st => .streamB st
    | .otherv r => .strB r
  { body := b, disturbed := false, size := size, timeout := timeout,
    url := url, headersContentType := hct }

/-- Message of the error thrown by `consumeBody` on a disturbed body. -/
def alreadyUsedMsg (url : String) : String :=
  "body used already for: " ++ url

/-- The plain `Error` thrown on re-consumption (the spec's
`already-used` failure). -/
def alreadyUsedErr (url : String) : ErrValue :=
  .plainErr (alreadyUsedMsg url)

/-- Message of the `body-timeout` `FetchError`. -/
def timeoutMsg (url : String) (timeout : Nat) : String :=
  "Response timeout while trying to fetch " ++ url ++ " (over " ++
    toString timeout ++ "ms)"

/-- Message of the `system` `FetchError` wrapping a stream error. -/
def systemMsg (url : String) (errMsg : String) : String :=
  "Invalid response body while trying to fetch " ++ url ++ ": " ++ errMsg

/-- Message of the `max-size` `FetchError`. -/
def maxSizeMsg (url : String) (size : Nat) : String :=
  "content size at " ++ url ++ " over limit: " ++ toString size

/-- An event observed by the stream-consumption loop: a `'data'` chunk,
an `'error'` event (with the underlying error's message and code), the
`'end'` event, or the body-timeout timer firing. -/
inductive StreamEvent where
  | dataEv (chunk : List Nat)
  | errorEv (msg : String) (code : String)
  | endEv
  | timerFire
  deriving DecidableEq, Repr

instance {ε α : Type} [DecidableEq ε] [DecidableEq α] :
    DecidableEq (Except ε α) := fun a b =>
  match a, b with
  | .ok x, .ok y => decidable_of_iff (x = y) (by simp)
  | .error x, .error y => decidable_of_iff (x = y) (by simp)
  | .ok _, .error _ => isFalse (by simp)
  | .error _, .ok _ => isFalse (by simp)

/-- The mutable state of the stream-consumption promise executor:
the `accum` chunk array and `accumBytes` counter, the `abort` flag, a
flag recording whether the body-timeout timer is currently armed, and
the promise's settled result (`none` while pending; settle-once). -/
structure ConsumeState where
  accum : List (List Nat)
  accumBytes : Nat
  abort : Bool
  timerArmed : Bool
  settled : Option (Except ErrValue (List Nat))
  deriving DecidableEq, Repr

/-- State at executor start: empty accumulator, not aborted, the timer
armed iff `timeout` is nonzero (`if (this.timeout) setTimeout(...)`),
promise pending. -/
def initState (timeout : Nat) : ConsumeState :=
  { accum := [], accumBytes := 0, abort := false,
    timerArmed := timeout ≠ 0, settled := none }

/-- Promise settle-once: a `resolve`/`reject` call on an already
settled promise is discarded. -/
def settleOnce (s : ConsumeState) (r : Except ErrValue (List Nat)) :
    ConsumeState :=
  if s.settled.isSome then s else { s with settled := some r }

/-- One event handler dispatch of the `consumeBody` stream loop,
transcribed from the source:

* timer fires (possible only while armed; one-shot): set `abort`,
  disarm, `reject(FetchError(..., 'body-timeout'))`;
* `'error'`: `reject(FetchError(..., 'system', err))` — note the source
  neither sets `abort` nor clears the timer here;
* `'data'`: return early if aborted; if `size` is nonzero and the chunk
  would push the byte count over it, set `abort` and
  `reject(FetchError(..., 'max-size'))` without appending — note the
  source does not clear the timer here either; otherwise append;
* `'end'`: return early if aborted; else clear the timer and
  `resolve(Buffer.concat(accum))`. -/
def stepEvent (url : String) (size timeout : Nat) (s : ConsumeState)
    (e : StreamEvent) : ConsumeState :=
  match e with
  | .timerFire =>
      if s.timerArmed then
        settleOnce { s with abort := true, timerArmed := false }
          (.error (.fetchErr "body-timeout" (timeoutMsg url timeout) none))
      else s
  | .errorEv msg code =>
      settleOnce s (.error (.fetchErr "system" (systemMsg url msg) (some code)))
  | .dataEv chunk =>
      if s.abort then s
      else if size ≠ 0 ∧ s.accumBytes + chunk.length > size then
        settleOnce { s with abort := true }
          (.error (.fetchErr "max-size" (maxSizeMsg url size) none))
      else
        { s with accumBytes := s.accumBytes + chunk.length,
                 accum := s.accum ++ [chunk] }
  | .endEv =>
      if s.abort then s
      else settleOnce { s with timerArmed := false } (.ok s.accum.flatten)

/-- Run the stream-consumption executor over a trace of events. -/
def consumeStream (url : String) (size timeout : Nat)
    (events : List StreamEvent) : ConsumeState :=
  events.foldl (stepEvent url size timeout) (initState timeout)

/-- The private `consumeBody` routine.  Returns the instance as updated
before any suspension point, paired with the promise outcome (`none`
when a stream trace never reaches a terminal event, i.e. the promise
stays pending).  Throwing `already-used` leaves the instance untouched;
every other path sets `DISTURBED` first and then dispatches on the body
shape: `null` → empty, string → UTF-8 bytes, Blob → its backing
`BUFFER`, Buffer → itself, non-stream fallback → empty (defensive),
stream → the event-loop state machine. -/
def consumeBody (h : Holder) (events : List StreamEvent) :
    Holder × Option (Except ErrValue (List Nat)) :=
  if h.disturbed then
    (h, some (.error (alreadyUsedErr h.url)))
  else
    let h' := { h with disturbed := true }
    match h.body with
    | .nullB => (h', some (.ok []))
    | .strB s => (h', some (.ok (utf8Bytes s)))
    | .blobB b => (h', some (.ok b.buffer))
    | .bufB b => (h', some (.ok b))
    | .otherB _ => (h', some (.ok []))
    | .streamB _ => (h', (consumeStream h.url h.size h.timeout events).settled)

/-- Method `buffer()` — returns `consumeBody` directly. -/
def bufferMeth (h : Holder) (events : List StreamEvent) :
    Holder × Option (Except ErrValue (List Nat)) :=
  consumeBody h events

/-- Method `arrayBuffer()` — a byte-for-byte slice of the consumed buffer. -/
def arrayBufferMeth (h : Holder) (events : List StreamEvent) :
    Holder × Option (Except ErrValue (List Nat)) :=
  let (h', r) := consumeBody h events
  (h', r.map (fun x => x.map (fun bs => bs)))

/-- Method `text()` — the consumed buffer decoded as UTF-8. -/
def textMeth (h : Holder) (events : List StreamEvent) :
    Holder × Option (Except ErrValue String) :=
  let (h', r) := consumeBody h events
  (h', r.map (fun x => x.map bufToString))

/-- Method `json()` — `parseJson(buffer.toString())`, where `parseJson` is the
external `json-parse-better-errors` parser, abstracted as a function
from the decoded text to either a parsed value or the parser's error
message.  The source has no `try`/`catch` around the parse: a parse
failure propagates the parser's own error (`jsonParseErr`). -/
def jsonMeth {α : Type} (parseJson : String → Except String α)
    (h : Holder) (events : List StreamEvent) :
    Holder × Option (Except ErrValue α) :=
  let (h', r) := consumeBody h events
  (h', r.map (fun x =>
    match x with
    | .error e => .error e
    | .ok bs =>
        match parseJson (bufToString bs) with
        | .ok v => .ok v
        | .error msg => .error (.jsonParseErr msg)))

/-- Method `blob()` — wraps the consumed bytes in a Blob whose `type` is the
lower-cased `content-type` header (or empty). -/
def blobMeth (h : Holder) (events : List StreamEvent) :
    Holder × Option (Except ErrValue BlobV) :=
  let ct := (h.headersContentType.getD "").toLower
  let (h', r) := consumeBody h events
  (h', r.map (fun x => x.map (fun bs =>
    { buffer := bs, type := ct, size := bs.length })))

/-- A fresh `PassThrough` stream fed from a stream delivering `cs`:
a new object (fresh `id`) with the same chunks and none of the
form-data capabilities. -/
def passThrough (id : Nat) (cs : List (List Nat)) : StreamV :=
  { id := id, chunks := cs }

/-- Function `clone(instance)`: throws if `bodyUsed`; if the body is a Stream
without a `getBoundary` member (i.e. not a form-data object), tees it
into two fresh `PassThrough` streams, reassigns the instance's body to
the first and returns the second; otherwise returns the body by
reference and leaves the instance unchanged.  `freshId` and
`freshId + 1` are the identities of the two new stream objects. -/
def clone (inst : Holder) (freshId : Nat) :
    Except ErrValue (Holder × BodyValue) :=
  if inst.bodyUsed then
    .error (.plainErr "cannot clone body after it is used")
  else
    match inst.body with
    | .streamB s =>
        if s.getBoundary.isSome then .ok (inst, .streamB s)
        else
          .ok ({ inst with body := .streamB (passThrough freshId s.chunks) },
               .streamB (passThrough (freshId + 1) s.chunks))
    | b => .ok (inst, b)

/-- Function `extractContentType(instance)`: `null` for a null body, the fixed
text/plain type for strings, `body.type || null` for Blobs, `null` for
Buffers, the multipart type with the form's boundary when the body has
a `getBoundary` member, and `null` for any other stream. -/
def extractContentType (inst : Holder) : Option String :=
  match inst.body with
  | .nullB => none
  | .strB _ => some "text/plain;charset=UTF-8"
  | .blobB b => if b.type = "" then none else some b.type
  | .bufB _ => none
  | .streamB s =>
      match s.getBoundary with
      | some bd => some ("multipart/form-data;boundary=" ++ bd)
      | none => none
  | .otherB _ => none

/-- Function `getTotalBytes(instance)`: `0` for null, the UTF-8 byte length for
strings, `size` for Blobs, `length` for Buffers; for a body with a
`getLengthSync` member (a form-data object), its synchronous length
when `_lengthRetrievers` is present and empty (1.x) or
`hasKnownLength()` returns true (2.x), else `null`; `null` for any
other stream. -/
def getTotalBytes (inst : Holder) : Option Nat :=
  match inst.body with
  | .nullB => some 0
  | .strB s => some (utf8Bytes s).length
  | .blobB b => some b.size
  | .bufB b => some b.length
  | .streamB s =>
      match s.getLengthSync with
      | some len =>
          if s.lengthRetrievers = some 0 ∨ s.hasKnownLengthFn = some true
          then some len
          else none
      | none => none
  | .otherB _ => none

/-- The event trace of a well-behaved stream body: its data chunks in
order, then a clean end. -/
def bodyEvents (chunks : List (List Nat)) : List StreamEvent :=
  chunks.map .dataEv ++ [.endEv]

/-- Total byte count of a chunk list. -/
def totalLen (chunks : List (List Nat)) : Nat :=
  (chunks.map List.length).sum

/-- A parser behavior standing for `json-parse-better-errors` applied
to a body that is not valid JSON: the parser throws its own error,
carrying its message. -/
def failingParse : String → Except String Unit :=
  fun _ => .error "Unexpected token h in JSON at position 0"

/-- Whether an error value is a `FetchError` carrying the given `type`
tag. -/
def isFetchErrType (t : String) : ErrValue → Bool :=
  fun e =>
    match e with
    | .fetchErr t' _ _ => t' = t
    | _ => false

@[simp] lemma totalLen_nil : totalLen [] = 0 := rfl

@[simp] lemma totalLen_cons (c : List Nat) (cs : List (List Nat)) :
    totalLen (c :: cs) = c.length + totalLen cs := by
  simp [totalLen]

lemma consumeBody_fst (h : Holder) (e : List StreamEvent) :
    (consumeBody h e).1 = if h.disturbed then h else { h with disturbed := true } := by
  by_cases hd : h.disturbed
  · simp [consumeBody, hd]
  · cases hb : h.body <;> simp [consumeBody, hd, hb]

lemma consumeBody_fst_disturbed (h : Holder) (e : List StreamEvent) :
    ((consumeBody h e).1).disturbed = true := by
  rw [consumeBody_fst]
  by_cases hd : h.disturbed <;> simp [hd]

lemma consumeBody_fst_url (h : Holder) (e : List StreamEvent) :
    ((consumeBody h e).1).url = h.url := by
  rw [consumeBody_fst]
  by_cases hd : h.disturbed <;> simp [hd]

lemma consumeBody_of_disturbed (h : Holder) (e : List StreamEvent)
    (hd : h.disturbed = true) :
    consumeBody h e = (h, some (.error (alreadyUsedErr h.url))) := by
  simp [consumeBody, hd]

lemma methods_fail_when_disturbed {α : Type}
    (parse : String → Except String α) (h1 : Holder)
    (e' : List StreamEvent) (hd : h1.disturbed = true) :
    (bufferMeth h1 e').2 = some (.error (alreadyUsedErr h1.url))
    ∧ (textMeth h1 e').2 = some (.error (alreadyUsedErr h1.url))
    ∧ (jsonMeth parse h1 e').2 = some (.error (alreadyUsedErr h1.url))
    ∧ (blobMeth h1 e').2 = some (.error (alreadyUsedErr h1.url))
    ∧ (arrayBufferMeth h1 e').2 = some (.error (alreadyUsedErr h1.url)) := by
  have hc : consumeBody h1 e' = (h1, some (.error (alreadyUsedErr h1.url))) :=
    consumeBody_of_disturbed h1 e' hd
  refine ⟨?_, ?_, ?_, ?_, ?_⟩ <;>
    simp [bufferMeth, textMeth, jsonMeth, blobMeth, arrayBufferMeth, hc, Except.map]

/-- C1: body consumption is at-most-once.  For every holder and every
event trace: (a) after any consumption call, `disturbed` (`bodyUsed`)
is set — in the embedding the first component of `consumeBody` is the
instance as updated before the stream events are even consulted,
mirroring the source setting `this[DISTURBED] = true` before any
suspension point; (b) a consumption call on a disturbed holder fails
immediately with the `already-used` error and leaves the holder
untouched, independently of the event trace; (c) after one consumption
call, every one of `buffer()`, `text()`, `json()`, `blob()`,
`arrayBuffer()` fails with the `already-used` error. -/
theorem consume_at_most_once {α : Type} (parse : String → Except String α)
    (h : Holder) (e e' : List StreamEvent) :
    ((consumeBody h e).1).disturbed = true
    ∧ (h.disturbed = true →
        consumeBody h e = (h, some (.error (alreadyUsedErr h.url))))
    ∧ ((bufferMeth (consumeBody h e).1 e').2
          = some (.error (alreadyUsedErr h.url))
       ∧ (textMeth (consumeBody h e).1 e').2
          = some (.error (alreadyUsedErr h.url))
       ∧ (jsonMeth parse (consumeBody h e).1 e').2
          = some (.error (alreadyUsedErr h.url))
       ∧ (blobMeth (consumeBody h e).1 e').2
          = some (.error (alreadyUsedErr h.url))
       ∧ (arrayBufferMeth (consumeBody h e).1 e').2
          = some (.error (alreadyUsedErr h.url))) := by
  refine ⟨consumeBody_fst_disturbed h e,
          fun hd => consumeBody_of_disturbed h e hd, ?_⟩
  have hrec := methods_fail_when_disturbed parse (consumeBody h e).1 e'
    (consumeBody_fst_disturbed h e)
  rw [consumeBody_fst_url h e] at hrec
  exact hrec

/-- Witness for C1 at a concrete holder: a second `text()` after a
first consumption fails with the `already-used` error. -/
theorem consume_at_most_once_witness :
    (textMeth (consumeBody (Body (.strv "hi") {} "u" none) []).1 []).2
      = some (.error (alreadyUsedErr "u")) :=
  (consume_at_most_once failingParse (Body (.strv "hi") {} "u" none) [] []).2.2.2.1

/-- C3: consuming a replayable body yields: null → the empty byte
sequence; string → its UTF-8 encoding; buffer → the very same byte
value (zero-copy: the source returns `this.body` itself); Blob → the
Blob's backing bytes (its `BUFFER` slot). -/
theorem consume_replayable (h : Holder) (e : List StreamEvent)
    (hd : h.disturbed = false) :
    (h.body = .nullB → (consumeBody h e).2 = some (.ok []))
    ∧ (∀ s, h.body = .strB s →
        (consumeBody h e).2 = some (.ok (utf8Bytes s)))
    ∧ (∀ b, h.body = .bufB b → (consumeBody h e).2 = some (.ok b))
    ∧ (∀ bl, h.body = .blobB bl →
        (consumeBody h e).2 = some (.ok bl.buffer)) := by
  refine ⟨fun hb => ?_, fun s hb => ?_, fun b hb => ?_, fun bl hb => ?_⟩ <;>
    simp [consumeBody, hd, hb]

/-- Witness for C3: a concrete buffer body is returned as-is. -/
theorem consume_replayable_witness :
    (consumeBody (Body (.bufv [7, 8]) {} "u" none) []).2 = some (.ok [7, 8]) :=
  ((consume_replayable (Body (.bufv [7, 8]) {} "u" none) [] rfl).2.2.1) [7, 8] rfl

/-- C10: the `Body` constructor normalizes its argument: the stored
body is never the defensive `otherB` shape (so the defensive
empty-buffer branch of `consumeBody` is unreachable for
constructor-built holders); `null`/`undefined` are stored as `null`;
and a value of any other non-special type is coerced via `String(body)`
at construction, so consuming it yields the UTF-8 bytes of that
string. -/
theorem body_ctor_normalizes (raw : RawInput) (opts : BodyOpts)
    (url : String) (hct : Option String) :
    (∀ r, (Body raw opts url hct).body ≠ .otherB r)
    ∧ ((raw = .nullv ∨ raw = .undef) →
        (Body raw opts url hct).body = .nullB)
    ∧ (∀ r, raw = .otherv r →
        (Body raw opts url hct).body = .strB r
        ∧ ∀ e, (consumeBody (Body raw opts url hct) e).2
            = some (.ok (utf8Bytes r))) := by
  refine ⟨?_, ?_, ?_⟩
  · intro r; cases raw <;> simp [Body]
  · rintro (rfl | rfl) <;> simp [Body]
  · rintro r rfl
    refine ⟨by simp [Body], fun e => ?_⟩
    simp [Body, consumeBody]

/-- Witness for C10: an object body is coerced to its string image and
consumed as the UTF-8 bytes of `"[object Object]"`. -/
theorem body_ctor_normalizes_witness :
    (Body (.otherv "[object Object]") {} "u" none).body
        = .strB "[object Object]"
    ∧ (consumeBody (Body (.otherv "[object Object]") {} "u" none) []).2
        = some (.ok (utf8Bytes "[object Object]")) := by
  have h := (body_ctor_normalizes (.otherv "[object Object]") {} "u" none).2.2
    "[object Object]" rfl
  exact ⟨h.1, h.2 []⟩

/-- C8: `extractContentType` returns the fixed text/plain type for a
string body; the Blob's `type` (or nothing, when that is the empty
string) for a Blob body; nothing for a buffer body; the multipart type
carrying the form's boundary for a body exposing `getBoundary`; and
nothing for any other stream body. -/
theorem extractContentType_spec (h : Holder) :
    (∀ s, h.body = .strB s →
        extractContentType h = some "text/plain;charset=UTF-8")
    ∧ (∀ b, h.body = .blobB b →
        extractContentType h = (if b.type = "" then none else some b.type))
    ∧ (∀ b, h.body = .bufB b → extractContentType h = none)
    ∧ (∀ s bd, h.body = .streamB s → s.getBoundary = some bd →
        extractContentType h = some ("multipart/form-data;boundary=" ++ bd))
    ∧ (∀ s, h.body = .streamB s → s.getBoundary = none →
        extractContentType h = none) := by
  refine ⟨fun s hb => ?_, fun b hb => ?_, fun b hb => ?_,
          fun s bd hb hbd => ?_, fun s hb hbd => ?_⟩ <;>
    simp [extractContentType, hb] <;> simp [hbd]

/-- Witness for C8: a concrete multipart-form body (a stream exposing
`getBoundary`) yields the multipart content type with its boundary. -/
theorem extractContentType_spec_witness :
    extractContentType
        { body := .streamB { id := 0, chunks := [], getBoundary := some "XB" },
          disturbed := false, size := 0, timeout := 0, url := "u" }
      = some "multipart/form-data;boundary=XB" :=
  (extractContentType_spec _).2.2.2.1 _ "XB" rfl rfl

/-- C9: `getTotalBytes` returns the UTF-8 byte length for a string
body, `size` for a Blob body, `length` for a buffer body; for a
multipart-form body (a body exposing `getLengthSync`) its synchronous
length exactly when the form reports known length (`_lengthRetrievers`
present and empty, or `hasKnownLength()` returning true) and nothing
otherwise; and nothing for any other stream body. -/
theorem getTotalBytes_spec (h : Holder) :
    (∀ s, h.body = .strB s → getTotalBytes h = some (utf8Bytes s).length)
    ∧ (∀ b, h.body = .blobB b → getTotalBytes h = some b.size)
    ∧ (∀ b, h.body = .bufB b → getTotalBytes h = some b.length)
    ∧ (∀ s len, h.body = .streamB s → s.getLengthSync = some len →
        ((s.lengthRetrievers = some 0 ∨ s.hasKnownLengthFn = some true) →
            getTotalBytes h = some len)
        ∧ (¬(s.lengthRetrievers = some 0 ∨ s.hasKnownLengthFn = some true) →
            getTotalBytes h = none))
    ∧ (∀ s, h.body = .streamB s → s.getLengthSync = none →
        getTotalBytes h = none) := by
  refine ⟨fun s hb => ?_, fun b hb => ?_, fun b hb => ?_,
          fun s len hb hlen => ⟨fun hk => ?_, fun hk => ?_⟩,
          fun s hb hlen => ?_⟩
  · simp [getTotalBytes, hb]
  · simp [getTotalBytes, hb]
  · simp [getTotalBytes, hb]
  · simp [getTotalBytes, hb, hlen, hk]
  · simp [getTotalBytes, hb, hlen, hk]
  · simp [getTotalBytes, hb, hlen]

/-- Witness for C9: a concrete form body with a pending
length-retriever and no `hasKnownLength` reports an unknown length. -/
theorem getTotalBytes_spec_witness :
    getTotalBytes
        { body := .streamB { id := 0, chunks := [],
                             lengthRetrievers := some 2,
                             getLengthSync := some 44 },
          disturbed := false, size := 0, timeout := 0, url := "u" }
      = none :=
  (((getTotalBytes_spec _).2.2.2.1 _ 44 rfl rfl).2) (by simp)

/-- C5: `clone` fails exactly when `bodyUsed` is set.  On an
undisturbed holder whose body is a stream without `getBoundary`, the
owner's body is replaced by one fresh pass-through fed from the
original and the clone receives a second fresh pass-through fed from
the same original: two distinct stream objects both delivering the
original's chunks.  For every other body shape (including
multipart-form streams) the clone receives the very same body value
and the owner is unchanged. -/
theorem clone_spec (h : Holder) (n : Nat) :
    ((∃ err, clone h n = .error err) ↔ h.bodyUsed = true)
    ∧ (h.bodyUsed = false →
        (∀ s, h.body = .streamB s → s.getBoundary = none →
          clone h n
              = .ok ({ h with body := .streamB (passThrough n s.chunks) },
                     .streamB (passThrough (n + 1) s.chunks))
          ∧ (passThrough n s.chunks).chunks = s.chunks
          ∧ (passThrough (n + 1) s.chunks).chunks = s.chunks
          ∧ (passThrough n s.chunks).id ≠ (passThrough (n + 1) s.chunks).id)
        ∧ (∀ s, h.body = .streamB s → s.getBoundary ≠ none →
            clone h n = .ok (h, h.body))
        ∧ ((∀ s, h.body ≠ .streamB s) → clone h n = .ok (h, h.body))) := by
  constructor
  · constructor
    · rintro ⟨err, herr⟩
      by_contra hused
      have hd : h.bodyUsed = false := by
        cases hb : h.bodyUsed
        · rfl
        · exact absurd hb hused
      cases hb : h.body <;> simp [clone, hd, hb] at herr
      · rename_i s
        by_cases hbd : s.getBoundary.isSome <;> simp [hbd] at herr
    · intro hused
      exact ⟨.plainErr "cannot clone body after it is used",
             by simp [clone, hused]⟩
  · intro hd
    refine ⟨fun s hb hbd => ?_, fun s hb hbd => ?_, fun hns => ?_⟩
    · refine ⟨?_, rfl, rfl, by simp [passThrough]⟩
      simp [clone, hd, hb, hbd]
    · obtain ⟨bd, hbd'⟩ := Option.ne_none_iff_exists'.mp hbd
      simp [clone, hd, hb, hbd']
    · cases hb : h.body <;> simp [clone, hd, hb]
      · exact absurd hb (hns _)

/-- Witness for C5: cloning a concrete undisturbed holder with a
non-form stream body tees it into two fresh pass-through streams with
the original's chunks. -/
theorem clone_spec_witness :
    clone (Body (.streamv { id := 0, chunks := [[1], [2]] }) {} "u" none) 5
      = .ok ({ Body (.streamv { id := 0, chunks := [[1], [2]] }) {} "u" none
                 with body := .streamB (passThrough 5 [[1], [2]]) },
             .streamB (passThrough 6 [[1], [2]])) :=
  (((clone_spec (Body (.streamv { id := 0, chunks := [[1], [2]] }) {} "u" none)
      5).2 rfl).1 _ rfl rfl).1

/-- The `max-size` error value. -/
def maxSizeErr (url : String) (size : Nat) : ErrValue :=
  .fetchErr "max-size" (maxSizeMsg url size) none

lemma foldl_data_abort (url : String) (S T : Nat)
    (chunks : List (List Nat)) :
    ∀ s : ConsumeState, s.abort = true →
      chunks.foldl (fun st c => stepEvent url S T st (.dataEv c)) s = s := by
  induction chunks with
  | nil => intro s _; rfl
  | cons c cs ih =>
      intro s hs
      rw [List.foldl_cons]
      have hstep : stepEvent url S T s (.dataEv c) = s := by
        simp [stepEvent, hs]
      rw [hstep]
      exact ih s hs

lemma foldl_data_ok (url : String) (S T : Nat) (chunks : List (List Nat)) :
    ∀ s : ConsumeState, s.abort = false →
      (S = 0 ∨ s.accumBytes + totalLen chunks ≤ S) →
      chunks.foldl (fun st c => stepEvent url S T st (.dataEv c)) s
        = { s with accum := s.accum ++ chunks,
                   accumBytes := s.accumBytes + totalLen chunks } := by
  induction chunks with
  | nil => intro s _ _; simp
  | cons c cs ih =>
      intro s hab hcap
      rw [List.foldl_cons]
      have hnot : ¬(S ≠ 0 ∧ s.accumBytes + c.length > S) := by
        rcases hcap with h0 | hle
        · intro hc; exact hc.1 h0
        · intro hc
          have : totalLen (c :: cs) = c.length + totalLen cs := by simp
          omega
      have hstep : stepEvent url S T s (.dataEv c)
          = { s with accumBytes := s.accumBytes + c.length,
                     accum := s.accum ++ [c] } := by
        simp only [stepEvent]
        rw [if_neg (by simp [hab]), if_neg hnot]
      rw [hstep]
      have hcap' : S = 0 ∨
          ({ s with accumBytes := s.accumBytes + c.length,
                    accum := s.accum ++ [c] } : ConsumeState).accumBytes
            + totalLen cs ≤ S := by
        rcases hcap with h0 | hle
        · exact Or.inl h0
        · right
          have htl : totalLen (c :: cs) = c.length + totalLen cs := by simp
          show s.accumBytes + c.length + totalLen cs ≤ S
          omega
      rw [ih { s with accumBytes := s.accumBytes + c.length,
                      accum := s.accum ++ [c] } hab hcap']
      have htl : totalLen (c :: cs) = c.length + totalLen cs := by simp
      cases s
      simp [List.append_assoc, htl]
      omega

lemma foldl_data_exceed (url : String) (S T : Nat)
    (chunks : List (List Nat)) :
    ∀ s : ConsumeState, s.abort = false → s.settled = none → S ≠ 0 →
      s.accumBytes ≤ S → S < s.accumBytes + totalLen chunks →
      (chunks.foldl (fun st c => stepEvent url S T st (.dataEv c)) s).settled
          = some (.error (maxSizeErr url S))
      ∧ (chunks.foldl (fun st c => stepEvent url S T st (.dataEv c)) s).abort
          = true
      ∧ (chunks.foldl (fun st c => stepEvent url S T st (.dataEv c)) s).timerArmed
          = s.timerArmed := by
  induction chunks with
  | nil =>
      intro s hab hset hS hle hgt
      exfalso
      simp [totalLen] at hgt
      omega
  | cons c cs ih =>
      intro s hab hset hS hle hgt
      rw [List.foldl_cons]
      by_cases hc : s.accumBytes + c.length > S
      · have hstep : stepEvent url S T s (.dataEv c)
            = { s with abort := true,
                       settled := some (.error (maxSizeErr url S)) } := by
          simp only [stepEvent]
          rw [if_neg (by simp [hab]), if_pos ⟨hS, hc⟩]
          simp [settleOnce, hset, maxSizeErr]
        rw [hstep, foldl_data_abort url S T cs _ rfl]
        exact ⟨rfl, rfl, rfl⟩
      · push_neg at hc
        have hnot : ¬(S ≠ 0 ∧ s.accumBytes + c.length > S) := by
          intro hx; omega
        have hstep : stepEvent url S T s (.dataEv c)
            = { s with accumBytes := s.accumBytes + c.length,
                       accum := s.accum ++ [c] } := by
          simp only [stepEvent]
          rw [if_neg (by simp [hab]), if_neg hnot]
        rw [hstep]
        have hgt' : S < (s.accumBytes + c.length) + totalLen cs := by
          have : totalLen (c :: cs) = c.length + totalLen cs := by simp
          omega
        exact ih _ hab hset hS hc hgt'

/-- C2: consumption of a stream body delivering `chunks` and then a
clean end, under size cap `S`.  When `S = 0` there is no cap and the
result is the concatenation of all chunks.  When `S > 0`, the result is
the concatenation of all chunks exactly when the total byte count is at
most `S` (so a total of exactly `S` succeeds), and the `max-size`
`FetchError` exactly when the total exceeds `S` — the check runs before
each append, so a single chunk larger than `S` is itself an instance of
the failing case. -/
theorem size_cap_spec (url : String) (S T : Nat)
    (chunks : List (List Nat)) :
    (S = 0 →
      (consumeStream url S T (bodyEvents chunks)).settled
        = some (.ok chunks.flatten))
    ∧ (S ≠ 0 → totalLen chunks ≤ S →
      (consumeStream url S T (bodyEvents chunks)).settled
        = some (.ok chunks.flatten))
    ∧ (S ≠ 0 → S < totalLen chunks →
      (consumeStream url S T (bodyEvents chunks)).settled
        = some (.error (maxSizeErr url S))) := by
  have hrun : consumeStream url S T (bodyEvents chunks)
      = stepEvent url S T
          (chunks.foldl (fun st c => stepEvent url S T st (.dataEv c))
            (initState T))
          .endEv := by
    simp [consumeStream, bodyEvents, List.foldl_append, List.foldl_map]
  refine ⟨fun h0 => ?_, fun hS hle => ?_, fun hS hgt => ?_⟩
  · rw [hrun, foldl_data_ok url S T chunks (initState T) rfl (Or.inl h0)]
    simp [stepEvent, initState, settleOnce]
  · rw [hrun, foldl_data_ok url S T chunks (initState T) rfl
          (Or.inr (by simp [initState]; omega))]
    simp [stepEvent, initState, settleOnce]
  · have hx := foldl_data_exceed url S T chunks (initState T) rfl rfl hS
      (by simp [initState]) (by simp [initState]; omega)
    rw [hrun]
    set F := chunks.foldl (fun st c => stepEvent url S T st (.dataEv c))
      (initState T) with hF
    have hend : stepEvent url S T F .endEv = F := by
      simp only [stepEvent]
      rw [if_pos hx.2.1]
    rw [hend]
    exact hx.1

/-- Witness for C2: under cap 3, a body of total length exactly 3
succeeds with the concatenated bytes, and a single 4-byte chunk is
rejected with `max-size`. -/
theorem size_cap_spec_witness :
    (consumeStream "u" 3 0 (bodyEvents [[1, 2], [3]])).settled
        = some (.ok [1, 2, 3])
    ∧ (consumeStream "u" 3 0 (bodyEvents [[1, 2, 3, 4]])).settled
        = some (.error (maxSizeErr "u" 3)) :=
  ⟨(size_cap_spec "u" 3 0 [[1, 2], [3]]).2.1 (by decide) (by decide),
   (size_cap_spec "u" 3 0 [[1, 2, 3, 4]]).2.2 (by decide) (by decide)⟩

lemma stepEvent_settled_mono (url : String) (S T : Nat)
    (s : ConsumeState) (e : StreamEvent)
    (r : Except ErrValue (List Nat)) (hs : s.settled = some r) :
    (stepEvent url S T s e).settled = some r := by
  have hsome : s.settled.isSome = true := by simp [hs]
  cases e with
  | timerFire =>
      by_cases h1 : s.timerArmed
      · simp only [stepEvent]
        rw [if_pos h1]
        simp [settleOnce, hs]
      · simp only [stepEvent]
        rw [if_neg h1]
        exact hs
  | errorEv m c =>
      simp only [stepEvent]
      simp [settleOnce, hs]
  | dataEv c =>
      by_cases h1 : s.abort
      · simp only [stepEvent]
        rw [if_pos h1]
        exact hs
      · by_cases h2 : S ≠ 0 ∧ s.accumBytes + c.length > S
        · simp only [stepEvent]
          rw [if_neg h1, if_pos h2]
          simp [settleOnce, hs]
        · simp only [stepEvent]
          rw [if_neg h1, if_neg h2]
          exact hs
  | endEv =>
      by_cases h1 : s.abort
      · simp only [stepEvent]
        rw [if_pos h1]
        exact hs
      · simp only [stepEvent]
        rw [if_neg h1]
        simp [settleOnce, hs]

lemma foldl_settled_mono (url : String) (S T : Nat)
    (es : List StreamEvent) :
    ∀ (s : ConsumeState) (r : Except ErrValue (List Nat)),
      s.settled = some r →
      (es.foldl (stepEvent url S T) s).settled = some r := by
  induction es with
  | nil => intro s r hs; exact hs
  | cons e es ih =>
      intro s r hs
      rw [List.foldl_cons]
      exact ih _ r (stepEvent_settled_mono url S T s e r hs)

/-- C7: the stream-consumption promise settles once.  Whatever terminal
event (stream error, body-timeout firing, size-exceeded, or clean end)
first settles the promise, any continuation of the event trace — in
particular any later terminal event — leaves the settled result
unchanged: later events are discarded. -/
theorem first_terminal_event_wins (url : String) (S T : Nat)
    (es1 es2 : List StreamEvent) (r : Except ErrValue (List Nat))
    (h : (consumeStream url S T es1).settled = some r) :
    (consumeStream url S T (es1 ++ es2)).settled = some r := by
  unfold consumeStream at h ⊢
  rw [List.foldl_append]
  exact foldl_settled_mono url S T es2 _ r h

/-- Witness for C7: a stream error settles the promise with the
`system` error; a clean end arriving afterwards is discarded. -/
theorem first_terminal_event_wins_witness :
    (consumeStream "u" 0 0 ([.errorEv "bad gz" "Z_DATA_ERROR"] ++ [.endEv])).settled
      = some (.error (.fetchErr "system" (systemMsg "u" "bad gz")
          (some "Z_DATA_ERROR"))) :=
  first_terminal_event_wins "u" 0 0 [.errorEv "bad gz" "Z_DATA_ERROR"] [.endEv]
    (.error (.fetchErr "system" (systemMsg "u" "bad gz") (some "Z_DATA_ERROR")))
    (by decide)

/-- C6 evaluation: the source clears the body-timeout timer only in the
`'end'` handler.  With `timeout = 1000` and `size = 5`, a single 6-byte
chunk settles the promise with `max-size` while the timer stays armed
(the subsequent `'end'` returns early because `abort` is set, so it
never reaches `clearTimeout`); likewise a stream error settles the
promise with `system` and leaves the timer armed.  This contradicts the
claim that the timer is disarmed on every exit path. -/
theorem timer_left_armed_after_settle :
    ((consumeStream "u" 5 1000 [.dataEv [0, 1, 2, 3, 4, 5], .endEv]).settled
        = some (.error (maxSizeErr "u" 5))
      ∧ (consumeStream "u" 5 1000 [.dataEv [0, 1, 2, 3, 4, 5], .endEv]).timerArmed
        = true)
    ∧ ((consumeStream "u" 0 1000 [.errorEv "boom" "EIO"]).settled
        = some (.error (.fetchErr "system" (systemMsg "u" "boom") (some "EIO")))
      ∧ (consumeStream "u" 0 1000 [.errorEv "boom" "EIO"]).timerArmed
        = true) := by
  refine ⟨⟨?_, ?_⟩, ⟨?_, ?_⟩⟩ <;> decide

/-- C4 (amended): `json()` is exactly `parseJson` applied to the UTF-8
text of the consumed body bytes, for every parser behavior: when
`text()` would resolve to `s` and the parser accepts `s`, `json()`
resolves to the parsed value; when the parser rejects `s` with a
message, `json()` fails with the parser's own error carrying that
message (there is no `try`/`catch` in the source, so no FetchError of
kind `invalid-json` is created); and when consumption itself fails,
`json()` propagates that error. -/
theorem json_parses_text {α : Type} (parse : String → Except String α)
    (h : Holder) (e : List StreamEvent) :
    (∀ s, (textMeth h e).2 = some (.ok s) →
        ((∀ v, parse s = .ok v → (jsonMeth parse h e).2 = some (.ok v))
        ∧ (∀ m, parse s = .error m →
            (jsonMeth parse h e).2 = some (.error (.jsonParseErr m)))))
    ∧ (∀ err, (textMeth h e).2 = some (.error err) →
        (jsonMeth parse h e).2 = some (.error err)) := by
  rcases hc : consumeBody h e with ⟨h', r⟩
  rcases r with _ | r
  · constructor
    · intro s hs
      simp [textMeth, hc] at hs
    · intro err herr
      simp [textMeth, hc] at herr
  · rcases r with err0 | bs
    · constructor
      · intro s hs
        simp [textMeth, hc, Except.map] at hs
      · intro err herr
        have herr' : err = err0 := by
          simp [textMeth, hc, Except.map] at herr
          exact herr.symm
        subst herr'
        simp [jsonMeth, hc]
    · constructor
      · intro s hs
        have hsb : s = bufToString bs := by
          simp [textMeth, hc, Except.map] at hs
          exact hs.symm
        subst hsb
        constructor
        · intro v hv
          simp [jsonMeth, hc, hv]
        · intro m hm
          simp [jsonMeth, hc, hm]
      · intro err herr
        simp [textMeth, hc, Except.map] at herr

/-- Witness for C4 (amended): on a body whose bytes are not valid JSON
the parser rejects, and `json()` fails with the parser's own error. -/
theorem json_parses_text_witness :
    (jsonMeth failingParse (Body (.strv "hello") {} "u" none) []).2
      = some (.error (.jsonParseErr "Unexpected token h in JSON at position 0")) :=
  (((json_parses_text failingParse (Body (.strv "hello") {} "u" none) []).1
      (bufToString (utf8Bytes "hello")) rfl).2
    "Unexpected token h in JSON at position 0" rfl)

/-- C4 counterexample: at a concrete holder whose body is not valid
JSON, `json()` fails with the external parser's own error, which is not
a `FetchError` of kind `invalid-json` — refuting the claim that the
failure is an `invalid-json`-kind error wrapping the parser's
message. -/
theorem json_error_not_invalid_json :
    (jsonMeth failingParse (Body (.strv "hello") {} "u" none) []).2
        = some (.error (.jsonParseErr "Unexpected token h in JSON at position 0"))
    ∧ isFetchErrType "invalid-json"
        (.jsonParseErr "Unexpected token h in JSON at position 0") = false := by
  exact ⟨rfl, rfl⟩

end FetchBody
